import Mathlib

/-!
Shallow embedding of the conan-center-index recipes in this repository
(recipes/cppcheck, recipes/imagemagick6, and the vectorscan test package),
together with theorems that settle configuration-consistency claims about
them. Python option dictionaries become association lists over a small
value type; recipe methods become pure Lean functions on explicit option
records; the one method that can raise a configuration error
(ImageMagick6Conan.validate) returns an Except value.
-/

/-- A value that an option (or a default) of a recipe may take: a boolean,
an integer, a string, or the Python value None. Mirrors the entries of the
`options` and `default_options` dictionaries in the conanfiles. -/
inductive OptVal where
  | bool (b : Bool)
  | nat (n : Nat)
  | str (s : String)
  | pynone
deriving DecidableEq

/-- The `options` dictionary of CppcheckConan (cppcheck/all/conanfile.py). -/
def cppcheckOptions : List (String × List OptVal) :=
  [("have_rules", [.bool true, .bool false])]

/-- The `default_options` dictionary of CppcheckConan. -/
def cppcheckDefaultOptions : List (String × OptVal) :=
  [("have_rules", .bool true)]

/-- The `options` dictionary of ImageMagick6Conan
(imagemagick6/all/conanfile.py, lines 21-43). -/
def imagemagickOptions : List (String × List OptVal) :=
  [("shared", [.bool true, .bool false]),
   ("fPIC", [.bool true, .bool false]),
   ("hdri", [.bool true, .bool false]),
   ("quantum_depth", [.nat 8, .nat 16, .nat 32]),
   ("with_zlib", [.bool true, .bool false]),
   ("with_bzlib", [.bool true, .bool false]),
   ("with_lzma", [.bool true, .bool false]),
   ("with_lcms", [.bool true, .bool false]),
   ("with_openexr", [.bool true, .bool false]),
   ("with_heic", [.bool true, .bool false]),
   ("with_jbig", [.bool true, .bool false]),
   ("with_jpeg", [.pynone, .str "libjpeg", .str "libjpeg-turbo"]),
   ("with_openjp2", [.bool true, .bool false]),
   ("with_pango", [.bool true, .bool false]),
   ("with_png", [.bool true, .bool false]),
   ("with_tiff", [.bool true, .bool false]),
   ("with_webp", [.bool true, .bool false]),
   ("with_xml2", [.bool true, .bool false]),
   ("with_freetype", [.bool true, .bool false]),
   ("with_djvu", [.bool true, .bool false]),
   ("utilities", [.bool true, .bool false])]

/-- The `default_options` dictionary of ImageMagick6Conan (lines 44-66). -/
def imagemagickDefaultOptions : List (String × OptVal) :=
  [("shared", .bool false),
   ("fPIC", .bool true),
   ("hdri", .bool true),
   ("quantum_depth", .nat 16),
   ("with_zlib", .bool true),
   ("with_bzlib", .bool true),
   ("with_lzma", .bool true),
   ("with_lcms", .bool true),
   ("with_openexr", .bool false),
   ("with_heic", .bool true),
   ("with_jbig", .bool true),
   ("with_jpeg", .str "libjpeg"),
   ("with_openjp2", .bool true),
   ("with_pango", .bool false),
   ("with_png", .bool true),
   ("with_tiff", .bool true),
   ("with_webp", .bool true),
   ("with_xml2", .bool false),
   ("with_freetype", .bool false),
   ("with_djvu", .bool false),
   ("utilities", .bool true)]

/-- Look up the declared allowed-value set of an option by name. -/
def lookupOption (opts : List (String × List OptVal)) (name : String) :
    Option (List OptVal) :=
  (opts.find? (fun p => p.1 == name)).map (fun p => p.2)

/-- Check that every default value of a recipe is a member of the declared
allowed-value set of the option it is a default for. -/
def defaultsWellTyped (opts : List (String × List OptVal))
    (defs : List (String × OptVal)) : Bool :=
  defs.all (fun p =>
    match lookupOption opts p.1 with
    | some vs => vs.contains p.2
    | none => false)

/-- The conan settings of a configuration: `settings = "os", "arch",
"compiler", "build_type"` as declared by both recipes. -/
structure Settings where
  os : String
  arch : String
  compiler : String
  build_type : String
deriving DecidableEq

/-- The option record of ImageMagick6Conan: one field per declared option. -/
structure IMOptions where
  shared : Bool
  fPIC : Bool
  hdri : Bool
  quantum_depth : Nat
  with_zlib : Bool
  with_bzlib : Bool
  with_lzma : Bool
  with_lcms : Bool
  with_openexr : Bool
  with_heic : Bool
  with_jbig : Bool
  with_jpeg : Option String
  with_openjp2 : Bool
  with_pango : Bool
  with_png : Bool
  with_tiff : Bool
  with_webp : Bool
  with_xml2 : Bool
  with_freetype : Bool
  with_djvu : Bool
  utilities : Bool
deriving DecidableEq

/-- An ImageMagick6 option record is valid when the non-boolean options
take one of their declared values: quantum_depth in 8, 16, 32 and
with_jpeg in None, "libjpeg", "libjpeg-turbo". -/
def IMOptions.valid (o : IMOptions) : Prop :=
  (o.quantum_depth = 8 ∨ o.quantum_depth = 16 ∨ o.quantum_depth = 32) ∧
  (o.with_jpeg = none ∨ o.with_jpeg = some "libjpeg" ∨
    o.with_jpeg = some "libjpeg-turbo")

/-- The default ImageMagick6 option record, from `default_options`. -/
def defaultIMOptions : IMOptions :=
  { shared := false, fPIC := true, hdri := true, quantum_depth := 16,
    with_zlib := true, with_bzlib := true, with_lzma := true,
    with_lcms := true, with_openexr := false, with_heic := true,
    with_jbig := true, with_jpeg := some "libjpeg", with_openjp2 := true,
    with_pango := false, with_png := true, with_tiff := true,
    with_webp := true, with_xml2 := false, with_freetype := false,
    with_djvu := false, utilities := true }

/-- ImageMagick6Conan.validate (lines 93-102): raises
ConanInvalidConfiguration exactly when the os setting is "Windows";
otherwise it only emits warnings (returned here as the ok value). -/
def imValidate (s : Settings) (o : IMOptions) : Except String (List String) :=
  if s.os == "Windows" then
    .error ("This recipe currently supports ImageMagick 6 on macOS (and Linux) via Autotools. " ++
      "Windows build is not supported with this configuration.")
  else
    .ok ((if o.with_pango && (s.os == "Macos") then
            ["Building ImageMagick with Pango on macOS might require X11/Quartz or specific setup."]
          else []) ++
         (if o.with_djvu then
            ["Conan package for DjVuLibre is not commonly available."]
          else []))

/-- CppcheckConan.requirements (lines 32-34): requires pcre/8.45 exactly
when the have_rules option is true. The option is never deleted, so
get_safe returns its value. -/
def cppcheckRequirements (have_rules : Bool) : List String :=
  if have_rules then ["pcre/8.45"] else []

/-- The settings part of the package-id information of a package. A field
holds none after the corresponding `del self.info.settings.x`. -/
structure InfoSettings where
  os : Option String
  arch : Option String
  compiler : Option String
  build_type : Option String
deriving DecidableEq

/-- CppcheckConan.package_id (lines 36-38): deletes the compiler and
build_type settings from the package-id information. -/
def cppcheckPackageId (s : InfoSettings) : InfoSettings :=
  { s with compiler := none, build_type := none }

/-- The yes_no helper of ImageMagick6Conan.generate (lines 152-153). -/
def yes_no (b : Bool) : String := if b then "yes" else "no"

/-- ASCII lowercase of one character, as Python str.lower acts on the
ASCII option values at hand. -/
def pyLowerChar (c : Char) : Char :=
  if 'A' ≤ c ∧ c ≤ 'Z' then Char.ofNat (c.toNat + 32) else c

/-- ASCII lowercase of a string. -/
def pyLower (s : String) : String := String.mk (s.data.map pyLowerChar)

/-- Python truthiness of a conan string-or-None option value, as used when
an option like with_jpeg is passed to yes_no: None is falsy, and a string
is truthy unless it spells an empty, false, none, zero or off value. -/
def optionTruthy : Option String → Bool
  | none => false
  | some v => !(v == "" || pyLower v == "false" || pyLower v == "none" ||
      v == "0" || pyLower v == "off")

/-- The configure_args list built by ImageMagick6Conan.generate
(lines 155-188), in source order. -/
def imConfigureArgs (o : IMOptions) : List String :=
  ["--disable-openmp",
   "--disable-opencl",
   "--disable-docs",
   "--with-perl=no",
   "--with-x=no",
   "--with-fontconfig=" ++ yes_no o.with_pango,
   "--without-dps",
   "--without-fftw",
   "--without-fpx",
   "--without-raw",
   "--without-wmf",
   "--enable-shared=" ++ yes_no o.shared,
   "--enable-static=" ++ yes_no (!o.shared),
   "--enable-hdri=" ++ yes_no o.hdri,
   "--with-quantum-depth=" ++ toString o.quantum_depth,
   "--with-zlib=" ++ yes_no o.with_zlib,
   "--with-bzlib=" ++ yes_no o.with_bzlib,
   "--with-lzma=" ++ yes_no o.with_lzma,
   "--with-lcms=" ++ yes_no o.with_lcms,
   "--with-openexr=" ++ yes_no o.with_openexr,
   "--with-heic=" ++ yes_no o.with_heic,
   "--with-jbig=" ++ yes_no o.with_jbig,
   "--with-jpeg=" ++ yes_no (optionTruthy o.with_jpeg),
   "--with-openjp2=" ++ yes_no o.with_openjp2,
   "--with-pango=" ++ yes_no o.with_pango,
   "--with-png=" ++ yes_no o.with_png,
   "--with-tiff=" ++ yes_no o.with_tiff,
   "--with-webp=" ++ yes_no o.with_webp,
   "--with-xml=" ++ yes_no o.with_xml2,
   "--with-freetype=" ++ yes_no o.with_freetype,
   "--with-djvu=" ++ yes_no o.with_djvu,
   "--with-utilities=" ++ yes_no o.utilities]

/-- ImageMagick6Conan.requirements (lines 104-137): the list of requirement
strings passed to self.requires, in source order. The jpeg branch mirrors
the if / elif on the with_jpeg value. -/
def imRequirements (o : IMOptions) : List String :=
  (if o.with_zlib then ["zlib/1.3.1"] else []) ++
  (if o.with_bzlib then ["bzip2/1.0.8"] else []) ++
  (if o.with_lzma then ["xz_utils/[>=5.4.5 <6]"] else []) ++
  (if o.with_lcms then ["lcms/2.16"] else []) ++
  (if o.with_openexr then ["openexr/3.1.9"] else []) ++
  (if o.with_heic then ["libheif/[>=1.16.2 <2]"] else []) ++
  (if o.with_jbig then ["jbig/20160605"] else []) ++
  (if o.with_jpeg = some "libjpeg" then ["libjpeg/9e"]
   else if o.with_jpeg = some "libjpeg-turbo" then ["libjpeg-turbo/3.0.3"]
   else []) ++
  (if o.with_openjp2 then ["openjpeg/[>=2.5.2 <3]"] else []) ++
  (if o.with_pango then ["pango/1.50.14"] else []) ++
  (if o.with_png then ["libpng/[>=1.6.48 <2]"] else []) ++
  (if o.with_tiff then ["libtiff/[>=4.6.0 <5]", "zstd/1.5.7"] else []) ++
  (if o.with_webp then ["libwebp/[>=1.3.2 <2]"] else []) ++
  (if o.with_xml2 then ["libxml2/2.12.7"] else []) ++
  (if o.with_freetype then ["freetype/2.13.2"] else [])

/-- Split a list of characters at every occurrence of a separator; the
accumulator holds the current group reversed. Used to model splitting a
requirement string at the slash and a version at the dots. -/
def splitOnChar (sep : Char) : List Char → List Char → List (List Char)
  | [], acc => [acc.reverse]
  | c :: rest, acc =>
    if c = sep then acc.reverse :: splitOnChar sep rest []
    else splitOnChar sep rest (c :: acc)

/-- The version-range part of a conan requirement string: the text after
the slash when that text is bracketed, none otherwise. -/
def versionRangeOf (req : String) : Option String :=
  match splitOnChar '/' req.data [] with
  | [_, v] =>
    match v with
    | '[' :: _ => some (String.mk v)
    | _ => none
  | _ => none

/-- A nonempty all-digit character group. -/
def isDigitGroup (l : List Char) : Bool :=
  !l.isEmpty && l.all (fun c => c.isDigit)

/-- A dotted numeric version literal: digit groups separated by dots. -/
def isDottedNumeric (l : List Char) : Bool :=
  (splitOnChar '.' l []).all isDigitGroup

/-- Modelled from the spec: a syntactically well-formed version range,
a bracketed expression of the form "[>=lower <upper]" whose two bounds
are dotted numeric version literals. -/
def isWellFormedRange (s : String) : Bool :=
  match s.data with
  | '[' :: '>' :: '=' :: rest =>
    (rest.getLast? == some ']') &&
      (match splitOnChar ' ' rest.dropLast [] with
       | [lo, hi] =>
         (match hi with
          | '<' :: hiBound => isDottedNumeric lo && isDottedNumeric hiBound
          | _ => false)
       | _ => false)
  | _ => false

/-- The major part of a conan version string: the text before the first
dot, as in Version(self.version).major for the versions at hand. -/
def versionMajor (v : String) : String := (v.splitOn ".").headD ""

/-- The core library modules of ImageMagick6Conan (property _modules). -/
def imModules : List String := ["MagickCore", "MagickWand", "Magick++"]

/-- ImageMagick6Conan._libname (lines 247-260): the library name stem for
a component base name, from the version major, the quantum depth and the
hdri option. -/
def libname (version : String) (o : IMOptions) (base : String) : String :=
  base ++ "-" ++ versionMajor version ++ ".Q" ++ toString o.quantum_depth ++
    (if o.hdri then "HDRI" else "")

/-- The library name as the naming convention of the claim spells it:
"base-major.Qdepth", with "HDRI" appended exactly when hdri is set. -/
def specLibName (version : String) (o : IMOptions) (base : String) : String :=
  let stem := base ++ "-" ++ versionMajor version ++ ".Q" ++
    toString o.quantum_depth
  if o.hdri then stem ++ "HDRI" else stem

/-- The pkg_config_name computed in package_info for one component
(lines 286-310): the stem without the hdri suffix, then "HDRI" appended
when hdri is set and the os is not Windows. -/
def imPcName (version : String) (s : Settings) (o : IMOptions)
    (base : String) : String :=
  let n := base ++ "-" ++ versionMajor version ++ ".Q" ++
    toString o.quantum_depth
  if o.hdri && !(s.os == "Windows") then n ++ "HDRI" else n

/-- The include subdirectory used by package_info:
include/ImageMagick-major. -/
def imIncludeSubdir (version : String) : String :=
  "include" ++ "/" ++ ("ImageMagick-" ++ versionMajor version)

/-- The conditional dependency references appended to the requires list of
the MagickCore component in package_info (lines 314-347). -/
def imCoreRequires (o : IMOptions) : List String :=
  (if o.with_zlib then ["zlib::zlib"] else []) ++
  (if o.with_bzlib then ["bzip2::bzip2"] else []) ++
  (if o.with_lzma then ["xz_utils::xz_utils"] else []) ++
  (if o.with_lcms then ["lcms::lcms"] else []) ++
  (if o.with_openexr then ["openexr::openexr"] else []) ++
  (if o.with_heic then ["libheif::libheif"] else []) ++
  (if o.with_jbig then ["jbig::jbig"] else []) ++
  (if o.with_jpeg = some "libjpeg" then ["libjpeg::libjpeg"]
   else if o.with_jpeg = some "libjpeg-turbo" then
     ["libjpeg-turbo::libjpeg-turbo"]
   else []) ++
  (if o.with_openjp2 then ["openjpeg::openjpeg"] else []) ++
  (if o.with_pango then ["pango::pango"] else []) ++
  (if o.with_png then ["libpng::libpng"] else []) ++
  (if o.with_tiff then ["libtiff::libtiff", "zstd::zstd"] else []) ++
  (if o.with_webp then ["libwebp::libwebp"] else []) ++
  (if o.with_xml2 then ["libxml2::libxml2"] else []) ++
  (if o.with_freetype then ["freetype::freetype"] else [])

/-- The per-component package information set by package_info. -/
structure Component where
  name : String
  libs : List String
  includedirs : List String
  requires : List String
  defines : List String
  system_libs : List String
  pkg_config_name : String
  cmake_target_name : String
deriving DecidableEq

/-- ImageMagick6Conan.package_info (lines 262-364): the three components
MagickCore, MagickWand and Magick++ with their libs, include dirs,
requires, defines, system libs and property names, in source order. -/
def imPackageInfo (version : String) (s : Settings) (o : IMOptions) :
    List Component :=
  [{ name := "MagickCore",
     libs := [libname version o "MagickCore"],
     includedirs := [imIncludeSubdir version ++ "/" ++ "magick"],
     requires := imCoreRequires o,
     defines := ["MAGICKCORE_QUANTUM_DEPTH=" ++ toString o.quantum_depth,
                 "MAGICKCORE_HDRI_ENABLE=" ++ (if o.hdri then "1" else "0"),
                 (if o.shared then "_MAGICKDLL_=1" else "_MAGICKLIB_=1")],
     system_libs := if s.os == "Linux" then ["pthread"] else [],
     pkg_config_name := imPcName version s o "MagickCore",
     cmake_target_name := "ImageMagick::MagickCore" },
   { name := "MagickWand",
     libs := [libname version o "MagickWand"],
     includedirs := [imIncludeSubdir version ++ "/" ++ "wand"],
     requires := ["MagickCore"],
     defines := [],
     system_libs := [],
     pkg_config_name := imPcName version s o "MagickWand",
     cmake_target_name := "ImageMagick::MagickWand" },
   { name := "Magick++",
     libs := [libname version o "Magick++"],
     includedirs := [imIncludeSubdir version ++ "/" ++ "Magick++",
                     imIncludeSubdir version],
     requires := ["MagickWand"],
     defines := [],
     system_libs := [],
     pkg_config_name := imPcName version s o "Magick++",
     cmake_target_name := "ImageMagick::Magick++" }]

theorem mem_ite_single {α : Type} (a x : α) (c : Prop) [Decidable c] :
    (a ∈ if c then [x] else ([] : List α)) ↔ c ∧ a = x := by
  split_ifs with h <;> simp [h]

theorem mem_ite_pair {α : Type} (a x y : α) (c : Prop) [Decidable c] :
    (a ∈ if c then [x, y] else ([] : List α)) ↔ c ∧ (a = x ∨ a = y) := by
  split_ifs with h <;> simp [h]

theorem mem_ite_ite_single {α : Type} (a x y : α) (c₁ c₂ : Prop)
    [Decidable c₁] [Decidable c₂] :
    (a ∈ if c₁ then [x] else if c₂ then [y] else ([] : List α)) ↔
      ((c₁ ∧ a = x) ∨ (¬c₁ ∧ c₂ ∧ a = y)) := by
  split_ifs with h1 h2 <;> simp [*]

theorem eq_append_yes_no_iff (s p : String) (b : Bool) :
    (s = p ++ yes_no b) ↔
      ((b = true ∧ s = p ++ "yes") ∨ (b = false ∧ s = p ++ "no")) := by
  cases b <;> simp [yes_no]

theorem yes_no_true : yes_no true = "yes" := rfl

theorem yes_no_false : yes_no false = "no" := rfl

theorem optionTruthy_none : optionTruthy none = false := rfl

theorem optionTruthy_libjpeg : optionTruthy (some "libjpeg") = true := rfl

theorem optionTruthy_turbo : optionTruthy (some "libjpeg-turbo") = true := rfl

theorem natStr8 : toString (8 : Nat) = "8" := rfl

theorem natStr16 : toString (16 : Nat) = "16" := rfl

theorem natStr32 : toString (32 : Nat) = "32" := rfl

/-- C3: every default value listed in default_options of the cppcheck
recipe and of the imagemagick6 recipe is a member of the declared
allowed-value set of the option it is a default for. -/
theorem default_options_within_declared_values :
    defaultsWellTyped cppcheckOptions cppcheckDefaultOptions = true ∧
    defaultsWellTyped imagemagickOptions imagemagickDefaultOptions = true := by
  decide

/-- C2: the validate operation of the imagemagick6 recipe raises
ConanInvalidConfiguration exactly when the os setting is "Windows",
whatever the other settings and the options are. Every other operation of
every recipe in this repository is embedded as a total function because
its source contains no raise of a configuration error. -/
theorem im_validate_raises_iff_windows :
    ∀ (s : Settings) (o : IMOptions),
      (∃ e, imValidate s o = Except.error e) ↔ s.os = "Windows" := by
  intro s o
  by_cases h : s.os = "Windows" <;> simp [imValidate, h]

/-- C5: the requirements operation of the cppcheck recipe adds pcre/8.45
exactly when the have_rules option is true, and adds nothing else. -/
theorem cppcheck_requirements_pcre_iff :
    ∀ hr : Bool,
      (("pcre/8.45" ∈ cppcheckRequirements hr) ↔ hr = true) ∧
      (∀ r ∈ cppcheckRequirements hr, r = "pcre/8.45") := by
  intro hr
  cases hr <;> simp [cppcheckRequirements]

theorem cppcheck_requirements_pcre_iff_witness :
    "pcre/8.45" ∈ cppcheckRequirements true :=
  (cppcheck_requirements_pcre_iff true).1.mpr rfl

/-- C10: the package_id operation of the cppcheck recipe deletes the
compiler and build_type settings, so two configurations that agree on os
and arch produce the same package identity whatever their compiler and
build_type are. -/
theorem cppcheck_package_id_ignores_compiler_buildtype :
    ∀ s₁ s₂ : InfoSettings, s₁.os = s₂.os → s₁.arch = s₂.arch →
      cppcheckPackageId s₁ = cppcheckPackageId s₂ := by
  intro s₁ s₂ h1 h2
  cases s₁
  cases s₂
  simp_all [cppcheckPackageId]

theorem cppcheck_package_id_ignores_compiler_buildtype_witness :
    cppcheckPackageId
        ⟨some "Linux", some "x86_64", some "gcc", some "Release"⟩ =
      cppcheckPackageId
        ⟨some "Linux", some "x86_64", some "clang", some "Debug"⟩ :=
  cppcheck_package_id_ignores_compiler_buildtype _ _ rfl rfl

/-- C1: for every option record and version, the library name computed by
_libname for each module base name follows the naming convention
base-major.Qdepth with HDRI appended exactly when the hdri option is set,
and package_info assigns exactly that name as the single entry of the
libs list of the component of that base name. -/
theorem im_libname_matches_convention :
    ∀ (version : String) (s : Settings) (o : IMOptions),
      (∀ base ∈ imModules,
        libname version o base = specLibName version o base) ∧
      (imPackageInfo version s o).map (fun c => (c.name, c.libs)) =
        imModules.map (fun b => (b, [libname version o b])) := by
  intro version s o
  constructor
  · intro base _
    cases h : o.hdri <;> simp [libname, specLibName, h]
  · rfl

theorem im_libname_matches_convention_witness :
    libname "6.9.13-25" defaultIMOptions "MagickCore" =
      specLibName "6.9.13-25" defaultIMOptions "MagickCore" :=
  (im_libname_matches_convention "6.9.13-25"
    ⟨"Linux", "x86_64", "gcc", "Release"⟩ defaultIMOptions).1
      "MagickCore" (by decide)

/-- C4: the configure argument generated for JPEG is always the literal
"--with-jpeg=" followed by yes_no of the truthiness of the with_jpeg
value: "--with-jpeg=yes" when with_jpeg is "libjpeg" or "libjpeg-turbo"
and "--with-jpeg=no" when with_jpeg is None; the backend name itself
never appears in the flag. -/
theorem im_jpeg_flag_uses_truthiness :
    ∀ o : IMOptions,
      (imConfigureArgs o)[22]? =
        some ("--with-jpeg=" ++ yes_no (optionTruthy o.with_jpeg)) ∧
      ((o.with_jpeg = some "libjpeg" ∨ o.with_jpeg = some "libjpeg-turbo") →
        (imConfigureArgs o)[22]? = some "--with-jpeg=yes") ∧
      (o.with_jpeg = none →
        (imConfigureArgs o)[22]? = some "--with-jpeg=no") := by
  intro o
  have base : (imConfigureArgs o)[22]? =
      some ("--with-jpeg=" ++ yes_no (optionTruthy o.with_jpeg)) := rfl
  refine ⟨base, ?_, ?_⟩
  · rintro (h | h) <;> rw [base, h] <;> rfl
  · intro h
    rw [base, h]
    rfl

theorem im_jpeg_flag_uses_truthiness_witness :
    (imConfigureArgs defaultIMOptions)[22]? = some "--with-jpeg=yes" :=
  (im_jpeg_flag_uses_truthiness defaultIMOptions).2.1 (Or.inl rfl)

/-- C6: the requirements operation of the imagemagick6 recipe adds
libjpeg/9e exactly when with_jpeg is "libjpeg", adds libjpeg-turbo/3.0.3
exactly when with_jpeg is "libjpeg-turbo", adds neither when with_jpeg is
None, and never adds both. -/
theorem im_jpeg_requirements_exclusive :
    ∀ o : IMOptions, o.valid →
      (("libjpeg/9e" ∈ imRequirements o) ↔
        o.with_jpeg = some "libjpeg") ∧
      (("libjpeg-turbo/3.0.3" ∈ imRequirements o) ↔
        o.with_jpeg = some "libjpeg-turbo") ∧
      ¬(("libjpeg/9e" ∈ imRequirements o) ∧
        ("libjpeg-turbo/3.0.3" ∈ imRequirements o)) := by
  intro o hv
  obtain ⟨-, hj⟩ := hv
  rcases hj with hj | hj | hj <;>
    refine ⟨?_, ?_, ?_⟩ <;>
      simp [imRequirements, hj, mem_ite_single, mem_ite_pair,
        mem_ite_ite_single]

theorem im_jpeg_requirements_exclusive_witness :
    "libjpeg/9e" ∈ imRequirements defaultIMOptions :=
  (im_jpeg_requirements_exclusive defaultIMOptions
    ⟨Or.inr (Or.inl rfl), Or.inr (Or.inl rfl)⟩).1.mpr rfl

/-- C7: every version range occurring in a requirement string of the
imagemagick6 recipe, under any option configuration, is a syntactically
well-formed bracketed range with dotted numeric bounds. -/
theorem im_requirement_ranges_wellformed :
    ∀ (o : IMOptions) (r : String), r ∈ imRequirements o →
      (versionRangeOf r).all isWellFormedRange = true := by
  intro o r hr
  simp only [imRequirements, List.mem_append, mem_ite_single, mem_ite_pair,
    mem_ite_ite_single, or_assoc] at hr
  rcases hr with ⟨-, rfl⟩ | ⟨_, rfl⟩ | ⟨-, rfl⟩ | ⟨_, rfl⟩ | ⟨-, rfl⟩ |
    ⟨_, rfl⟩ | ⟨-, rfl⟩ | ⟨_, rfl⟩ | ⟨-, _, rfl⟩ | ⟨_, rfl⟩ | ⟨-, rfl⟩ |
    ⟨_, rfl⟩ | ⟨-, rfl | rfl⟩ | ⟨_, rfl⟩ | ⟨-, rfl⟩ | ⟨_, rfl⟩ <;> decide

theorem im_requirement_ranges_wellformed_witness :
    (versionRangeOf "xz_utils/[>=5.4.5 <6]").all isWellFormedRange = true :=
  im_requirement_ranges_wellformed defaultIMOptions
    "xz_utils/[>=5.4.5 <6]" (by decide)

/-- C8: on every configuration that passes validate (os not "Windows"),
the pkg_config_name that package_info sets for each component equals the
library name computed by _libname for that component, HDRI suffix
included or omitted in both alike. -/
theorem im_pkgconfig_name_matches_libname :
    ∀ (version : String) (s : Settings) (o : IMOptions),
      s.os ≠ "Windows" →
      ∀ c ∈ imPackageInfo version s o,
        c.pkg_config_name = libname version o c.name := by
  intro version s o hos c hc
  have hb : (s.os == "Windows") = false := by
    simp [hos]
  simp only [imPackageInfo, List.mem_cons, List.not_mem_nil, or_false] at hc
  rcases hc with rfl | rfl | rfl <;>
    rcases Bool.eq_false_or_eq_true o.hdri with h | h <;>
      simp [imPcName, libname, hb, h]

theorem im_pkgconfig_name_matches_libname_witness :
    Component.pkg_config_name
        ((imPackageInfo "6.9.13-25" ⟨"Linux", "x86_64", "gcc", "Release"⟩
          defaultIMOptions).headD
            ⟨"", [], [], [], [], [], "", ""⟩) =
      libname "6.9.13-25" defaultIMOptions
        (Component.name
          ((imPackageInfo "6.9.13-25" ⟨"Linux", "x86_64", "gcc", "Release"⟩
            defaultIMOptions).headD
              ⟨"", [], [], [], [], [], "", ""⟩)) :=
  im_pkgconfig_name_matches_libname "6.9.13-25"
    ⟨"Linux", "x86_64", "gcc", "Release"⟩ defaultIMOptions
    (by decide) _ (by simp [imPackageInfo])

/-- C9: under every valid option configuration, the configure argument
list contains exactly one of the flag pairs enable-shared=yes with
enable-static=no, or enable-shared=no with enable-static=yes, the first
pair exactly when the shared option is set. -/
theorem im_shared_static_flags_complementary :
    ∀ o : IMOptions, o.valid →
      (o.shared = true →
        "--enable-shared=yes" ∈ imConfigureArgs o ∧
        "--enable-static=no" ∈ imConfigureArgs o ∧
        "--enable-shared=no" ∉ imConfigureArgs o ∧
        "--enable-static=yes" ∉ imConfigureArgs o) ∧
      (o.shared = false →
        "--enable-shared=no" ∈ imConfigureArgs o ∧
        "--enable-static=yes" ∈ imConfigureArgs o ∧
        "--enable-shared=yes" ∉ imConfigureArgs o ∧
        "--enable-static=no" ∉ imConfigureArgs o) := by
  intro o hv
  obtain ⟨hq, hj⟩ := hv
  rcases hq with hq | hq | hq <;> rcases hj with hj | hj | hj <;>
    constructor <;> intro hs <;> refine ⟨?_, ?_, ?_, ?_⟩ <;>
      simp [imConfigureArgs, hs, hq, hj, eq_append_yes_no_iff,
        yes_no_true, yes_no_false, optionTruthy_none, optionTruthy_libjpeg,
        optionTruthy_turbo, natStr8, natStr16, natStr32]

theorem im_shared_static_flags_complementary_witness :
    "--enable-shared=no" ∈ imConfigureArgs defaultIMOptions ∧
    "--enable-static=yes" ∈ imConfigureArgs defaultIMOptions := by
  have h :=
    (im_shared_static_flags_complementary defaultIMOptions
      ⟨Or.inr (Or.inl rfl), Or.inr (Or.inl rfl)⟩).2 rfl
  exact ⟨h.1, h.2.1⟩
